import Mathlib

/-!
# Verification of the Binance streaming trading bot core

Shallow embedding of the core of the repository (binance_ws_client.py,
trading_signals.py, config.py) and proofs about its candle window, websocket
lifecycle, indicator pipeline, signal engine and risk gate.

Numeric values carried by candles and indicators are modelled as rationals
(`ℚ`): the Python code works with 64-bit floats but every claim under study
is about control flow, ordering and exact arithmetic on small decimal
constants, none of which depends on rounding.
-/

set_option maxHeartbeats 1000000

namespace BinanceBot

/-! ## Configuration (config.py)

`WEBSOCKET_CONFIG`, `RISK_CONFIG` and `INDICATORS_CONFIG` from config.py,
restricted to the fields the embedded code reads. -/

structure WebsocketConfig where
  ping_interval : ℕ
  ping_timeout : ℕ
  reconnect_delay : ℕ
  max_reconnect_attempts : ℕ
deriving DecidableEq, Repr

/-- `WEBSOCKET_CONFIG` from config.py. -/
def websocketConfig : WebsocketConfig :=
  { ping_interval := 20
    ping_timeout := 10
    reconnect_delay := 5
    max_reconnect_attempts := 5 }

structure RiskConfig where
  max_open_positions : ℕ
  max_daily_trades : ℕ
  max_daily_loss : ℚ
  position_size_percentage : ℚ
deriving DecidableEq, Repr

/-- `RISK_CONFIG` from config.py. -/
def riskConfig : RiskConfig :=
  { max_open_positions := 1
    max_daily_trades := 10
    max_daily_loss := 5
    position_size_percentage := 1 }

/-- `INDICATORS_CONFIG['rsi']` from config.py. -/
def rsiOverbought : ℚ := 70

/-- `INDICATORS_CONFIG['rsi']` from config.py. -/
def rsiOversold : ℚ := 30

/-! ## The candle window (`BinanceWebSocketClient.on_message`, kline branch)

`self.df` rows carry the parsed kline fields.  The kline branch of
`on_message` builds `new_data` from the payload, concatenates it to the
DataFrame as a fresh row, and trims the frame to the last 1000 rows
(`self.df.tail(1000)`).  There is no comparison of the incoming candle's
open time against the current tail: every parsed kline becomes a new row. -/

structure CRow where
  /-- `timestamp` column: `pd.to_datetime(kline['t'], unit='ms')`, kept as the
  raw millisecond open time. -/
  open_time : ℕ
  «open» : ℚ
  high : ℚ
  low : ℚ
  close : ℚ
  volume : ℚ
  trades : ℕ
  quote_volume : ℚ
  close_time : ℕ
deriving DecidableEq, Repr

/-- The window bound hardcoded in `on_message`: ``if len(self.df) > 1000``. -/
def windowCap : ℕ := 1000

/-- The kline branch of `BinanceWebSocketClient.on_message`
(binance_ws_client.py lines 211-219): append the new row
(`pd.concat([self.df, new_row])`) and, when the length exceeds 1000, keep the
last 1000 rows (`self.df.tail(1000)`). -/
def onMessageAppend (df : List CRow) (r : CRow) : List CRow :=
  if (df ++ [r]).length > windowCap then
    (df ++ [r]).drop ((df ++ [r]).length - windowCap)
  else df ++ [r]

/-- Boolean check that `open_time` is non-decreasing along the window. -/
def openTimesNonDec : List CRow → Bool
  | [] => true
  | [_] => true
  | a :: b :: t => decide (a.open_time ≤ b.open_time) && openTimesNonDec (b :: t)

/-- A throwaway candle used to build concrete windows in tests. -/
def mkCRow (t : ℕ) : CRow :=
  { open_time := t, «open» := 1, high := 1, low := 1, close := 1,
    volume := 1, trades := 1, quote_volume := 1, close_time := t + 1 }

/-- The window obtained after feeding a whole stream of parsed klines through
`on_message`, starting from the empty DataFrame built in `__init__`. -/
def runStream (msgs : List CRow) : List CRow :=
  msgs.foldl onMessageAppend []

/-! ## Websocket lifecycle (`BinanceWebSocketClient`)

The lifecycle handlers mutate three attributes set in `__init__`: `self.ws`
(whether a transport object exists), `self.is_connected` and
`self.reconnect_attempts`.  Side effects on the transport are recorded as an
`Action` trace: `send` for `ws.send(json.dumps(...))` with the control
method, `close` for `ws.close()`, `sleep` for `time.sleep(...)`, and `start`
for a call to `self.start()` (a fresh connection attempt). -/

structure ClientState where
  ws_open : Bool
  is_connected : Bool
  reconnect_attempts : ℕ
deriving DecidableEq, Repr

inductive Action where
  | send (method : String)
  | close
  | sleep (secs : ℕ)
  | start
deriving DecidableEq, Repr

/-- `BinanceWebSocketClient.on_close` (binance_ws_client.py lines 245-257):
set `is_connected = False`; if `reconnect_attempts` is below
`WEBSOCKET_CONFIG['max_reconnect_attempts']`, increment it, sleep
`reconnect_delay` seconds and call `self.start()`; otherwise only log. -/
def onClose (st : ClientState) : ClientState × List Action :=
  if st.reconnect_attempts < websocketConfig.max_reconnect_attempts then
    ({ st with is_connected := false,
               reconnect_attempts := st.reconnect_attempts + 1 },
     [Action.sleep websocketConfig.reconnect_delay, Action.start])
  else
    ({ st with is_connected := false }, [])

/-- `BinanceWebSocketClient.on_open` (binance_ws_client.py lines 259-281):
set `is_connected = True`, reset `reconnect_attempts` to zero, and send the
SUBSCRIBE control frame. -/
def onOpen (st : ClientState) : ClientState × List Action :=
  ({ st with is_connected := true, reconnect_attempts := 0 },
   [Action.send "SUBSCRIBE"])

/-- `BinanceWebSocketClient.unsubscribe` (binance_ws_client.py lines
292-304): if a transport exists and the client is connected, send the
UNSUBSCRIBE control frame, close the transport and set
`is_connected = False`; otherwise do nothing. -/
def unsubscribe (st : ClientState) : ClientState × List Action :=
  if st.ws_open && st.is_connected then
    ({ st with is_connected := false },
     [Action.send "UNSUBSCRIBE", Action.close])
  else (st, [])

/-- `unsubscribe` followed by the `on_close` callback that the transport
library fires for the client-initiated `ws.close()` (the close handler is
registered unconditionally in `start()` and runs on every close, voluntary
or not). -/
def unsubscribeThenClose (st : ClientState) : ClientState × List Action :=
  let u := unsubscribe st
  let c := onClose u.1
  (c.1, u.2 ++ c.2)

/-- Iterate `on_close` over `k` consecutive connection closes with no
successful re-open in between, counting how many closes triggered a
reconnect attempt (a `start` action). -/
def consecCloses : ℕ → ClientState → ClientState × ℕ
  | 0, st => (st, 0)
  | k + 1, st =>
    let c := onClose st
    let rest := consecCloses k c.1
    (rest.1, (if Action.start ∈ c.2 then 1 else 0) + rest.2)

/-! ## The position-state policy (`TradingSignalGenerator`, trading_signals.py)

`TradingSignalGenerator.__init__` sets `in_long_position`,
`in_short_position`, the remembered `last_rsi` / `last_macd` /
`last_macd_signal` values (`None` until the first computed tick) and the
risk counters `daily_trades` / `daily_loss`.  Order-placement stubs are
recorded as a `TAction` trace. -/

structure TSState where
  in_long_position : Bool
  in_short_position : Bool
  last_rsi : Option ℚ
  last_macd : Option ℚ
  last_macd_signal : Option ℚ
  daily_trades : ℕ
  daily_loss : ℚ
deriving DecidableEq, Repr

/-- `TradingSignalGenerator.__init__` field initialisation. -/
def initTSState : TSState :=
  { in_long_position := false, in_short_position := false,
    last_rsi := none, last_macd := none, last_macd_signal := none,
    daily_trades := 0, daily_loss := 0 }

inductive TAction where
  | placeLongOrder
  | placeShortOrder
  | closeLongPosition
  | closeShortPosition
deriving DecidableEq, Repr

/-- `TradingSignalGenerator.check_risk_limits` (trading_signals.py lines
138-156): deny when the daily trade limit is reached, the daily loss limit
is reached, or a position is open while `RISK_CONFIG['max_open_positions']`
is at most 1. -/
def check_risk_limits (s : TSState) : Bool :=
  if s.daily_trades ≥ riskConfig.max_daily_trades then false
  else if s.daily_loss ≥ riskConfig.max_daily_loss then false
  else if (s.in_long_position || s.in_short_position)
      && riskConfig.max_open_positions ≤ 1 then false
  else true

/-- `TradingSignalGenerator.generate_signals` (trading_signals.py lines
91-136), translated branch for branch.  The four `if/elif` arms of the
source are kept in source order; in particular the third arm (`# Short
Entry Signal`) repeats the condition of the first arm, exactly as in the
Python `elif` chain. -/
def generate_signals (s : TSState)
    (current_rsi current_macd current_macd_signal : ℚ) :
    TSState × List TAction :=
  match s.last_rsi, s.last_macd, s.last_macd_signal with
  | some last_rsi, some last_macd, some last_macd_signal =>
    let rsi_crossed_below_oversold :=
      last_rsi > rsiOversold && current_rsi ≤ rsiOversold
    let rsi_crossed_above_overbought :=
      last_rsi < rsiOverbought && current_rsi ≥ rsiOverbought
    let macd_crossed_above_signal :=
      last_macd ≤ last_macd_signal && current_macd > current_macd_signal
    let macd_crossed_below_signal :=
      last_macd ≥ last_macd_signal && current_macd < current_macd_signal
    if !check_risk_limits s then (s, [])
    else if !s.in_long_position && !s.in_short_position then
      if rsi_crossed_below_oversold && macd_crossed_above_signal then
        ({ s with in_long_position := true, daily_trades := s.daily_trades + 1 },
         [TAction.placeLongOrder])
      else (s, [])
    else if s.in_long_position then
      if rsi_crossed_above_overbought || macd_crossed_below_signal then
        ({ s with in_long_position := false }, [TAction.closeLongPosition])
      else (s, [])
    else if !s.in_long_position && !s.in_short_position then
      if rsi_crossed_above_overbought && macd_crossed_below_signal then
        ({ s with in_short_position := true, daily_trades := s.daily_trades + 1 },
         [TAction.placeShortOrder])
      else (s, [])
    else if s.in_short_position then
      if rsi_crossed_below_oversold || macd_crossed_above_signal then
        ({ s with in_short_position := false }, [TAction.closeShortPosition])
      else (s, [])
    else (s, [])
  | _, _, _ => (s, [])

/-- A state with no open position, fresh risk counters and remembered
indicator values from the previous tick; at the current tick RSI crosses
above the overbought threshold (60 → 75 across 70) and MACD crosses below
its signal line (1 over 0 → −1 under 0): by the claim this must open a
short position. -/
def c3State : TSState :=
  { initTSState with
    last_rsi := some 60, last_macd := some 1, last_macd_signal := some 0 }

/-- The symmetric long-qualifying input: RSI crosses below oversold
(40 → 25 across 30) and MACD crosses above its signal (0 under 1 → 1 over
0). -/
def c3LongState : TSState :=
  { initTSState with
    last_rsi := some 40, last_macd := some 0, last_macd_signal := some 1 }

/-- A state whose daily-trade budget is exhausted, on the same
long-qualifying tick. -/
def c5State : TSState :=
  { c3LongState with daily_trades := 10 }

/-! ## The multi-rule signal engine
(`BinanceWebSocketClient.generate_trading_signals`, binance_ws_client.py
lines 33-121)

A row of the numeric view of `self.df` as read by the signal engine (after
`calculate_indicators` has filled the indicator columns and cast them to
float).  The function reads `self.df.iloc[-1]`, `self.df.iloc[-2]` and the
trailing 20-bar mean of the `volume` column. -/

structure SRow where
  «open» : ℚ
  high : ℚ
  low : ℚ
  close : ℚ
  volume : ℚ
  quote_volume : ℚ
  rsi : ℚ
  sma_20 : ℚ
  sma_50 : ℚ
  macd : ℚ
  macd_signal : ℚ
  macd_diff : ℚ
  vwap : ℚ
deriving DecidableEq, Repr

/-- Default row used only to totalise list indexing; every theorem indexes
inside the list's bounds. -/
def defSRow : SRow :=
  { «open» := 0, high := 0, low := 0, close := 0, volume := 0,
    quote_volume := 0, rsi := 0, sma_20 := 0, sma_50 := 0, macd := 0,
    macd_signal := 0, macd_diff := 0, vwap := 0 }

inductive SigType where
  | long
  | short
deriving DecidableEq, Repr

/-- The `signal_data` dict built at binance_ws_client.py lines 99-106. -/
structure Signal where
  type : SigType
  strength : ℚ
  price : ℚ
  stop_loss : ℚ
  take_profit : ℚ
  reasons : List String
deriving DecidableEq, Repr

/-- The four accumulator variables initialised at binance_ws_client.py
lines 42-45. -/
structure Flags where
  long_signal : Bool
  short_signal : Bool
  signal_strength : ℚ
  signal_reasons : List String
deriving DecidableEq, Repr

def initFlags : Flags :=
  { long_signal := false, short_signal := false, signal_strength := 0,
    signal_reasons := [] }

/-- `# RSI signals` block (lines 47-55). -/
def rsiRule (latest : SRow) (f : Flags) : Flags :=
  if latest.rsi < 30 then
    { f with long_signal := true, signal_strength := f.signal_strength + 1,
             signal_reasons := f.signal_reasons ++ ["RSI oversold"] }
  else if latest.rsi > 70 then
    { f with short_signal := true, signal_strength := f.signal_strength + 1,
             signal_reasons := f.signal_reasons ++ ["RSI overbought"] }
  else f

/-- `# Moving Average signals` block (lines 57-65). -/
def smaRule (latest prev : SRow) (f : Flags) : Flags :=
  if latest.sma_20 > latest.sma_50 && prev.sma_20 ≤ prev.sma_50 then
    { f with long_signal := true, signal_strength := f.signal_strength + 1,
             signal_reasons := f.signal_reasons ++
               ["Golden cross (SMA20 crossed above SMA50)"] }
  else if latest.sma_20 < latest.sma_50 && prev.sma_20 ≥ prev.sma_50 then
    { f with short_signal := true, signal_strength := f.signal_strength + 1,
             signal_reasons := f.signal_reasons ++
               ["Death cross (SMA20 crossed below SMA50)"] }
  else f

/-- `# MACD signals` block (lines 67-75). -/
def macdRule (latest prev : SRow) (f : Flags) : Flags :=
  if latest.macd > latest.macd_signal && prev.macd ≤ prev.macd_signal then
    { f with long_signal := true, signal_strength := f.signal_strength + 1,
             signal_reasons := f.signal_reasons ++ ["MACD bullish crossover"] }
  else if latest.macd < latest.macd_signal && prev.macd ≥ prev.macd_signal then
    { f with short_signal := true, signal_strength := f.signal_strength + 1,
             signal_reasons := f.signal_reasons ++ ["MACD bearish crossover"] }
  else f

/-- `# Volume confirmation` block (lines 77-84): the trailing 20-bar mean is
`self.df['volume'].rolling(window=20).mean().iloc[-1]`.  Note this block is
evaluated BEFORE the VWAP block and only adds strength to a direction that
is already flagged; it never sets a flag. -/
def volumeRule (latest : SRow) (rollMean : ℚ) (f : Flags) : Flags :=
  if latest.volume > rollMean then
    if f.long_signal then
      { f with signal_strength := f.signal_strength + 1/2,
               signal_reasons := f.signal_reasons ++ ["High volume confirmation"] }
    else if f.short_signal then
      { f with signal_strength := f.signal_strength + 1/2,
               signal_reasons := f.signal_reasons ++ ["High volume confirmation"] }
    else f
  else f

/-- `# VWAP signals` block (lines 86-94). -/
def vwapRule (latest prev : SRow) (f : Flags) : Flags :=
  if latest.close > latest.vwap && prev.close ≤ prev.vwap then
    { f with long_signal := true, signal_strength := f.signal_strength + 1/2,
             signal_reasons := f.signal_reasons ++ ["Price crossed above VWAP"] }
  else if latest.close < latest.vwap && prev.close ≥ prev.vwap then
    { f with short_signal := true, signal_strength := f.signal_strength + 1/2,
             signal_reasons := f.signal_reasons ++ ["Price crossed below VWAP"] }
  else f

/-- `self.df['volume'].rolling(window=20).mean().iloc[-1]`: arithmetic mean
of the last 20 volumes. -/
def rollingVolumeMean20 (df : List SRow) : ℚ :=
  ((df.drop (df.length - 20)).map (·.volume)).sum / 20

/-- `latest = self.df.iloc[-1]` (line 38). -/
def latestRow (df : List SRow) : SRow :=
  df.getD (df.length - 1) defSRow

/-- `prev = self.df.iloc[-2]` (line 39). -/
def prevRow (df : List SRow) : SRow :=
  df.getD (df.length - 2) defSRow

/-- The accumulator state after the five rule blocks (lines 42-94) have run
in source order. -/
def signalFlags (df : List SRow) : Flags :=
  vwapRule (latestRow df) (prevRow df)
    (volumeRule (latestRow df) (rollingVolumeMean20 df)
      (macdRule (latestRow df) (prevRow df)
        (smaRule (latestRow df) (prevRow df)
          (rsiRule (latestRow df) initFlags))))

/-- `BinanceWebSocketClient.generate_trading_signals` (binance_ws_client.py
lines 33-121): return early below 50 rows, run the five rule blocks in
source order over the last and second-to-last rows, and emit the
`signal_data` record when a direction is flagged (bullish branch first, as
in `"long" if long_signal else "short"`). -/
def generate_trading_signals (df : List SRow) : Option Signal :=
  if df.length < 50 then none
  else
    let latest := latestRow df
    let f := signalFlags df
    if f.long_signal || f.short_signal then
      some
        { type := if f.long_signal then SigType.long else SigType.short
          strength := f.signal_strength
          price := latest.close
          stop_loss :=
            if f.long_signal then latest.close * (98/100)
            else latest.close * (102/100)
          take_profit :=
            if f.long_signal then latest.close * (103/100)
            else latest.close * (97/100)
          reasons := f.signal_reasons }
    else none

/-- One of the four directional rules fires on the tick: the claim's "at
least one rule sets a directional flag", grouped as the bullish conditions
followed by the bearish ones (the volume-confirmation block never sets a
flag). -/
def someRuleFires (latest prev : SRow) : Bool :=
  ((latest.rsi < 30 : Bool) ||
   (latest.sma_20 > latest.sma_50 && prev.sma_20 ≤ prev.sma_50) ||
   (latest.macd > latest.macd_signal && prev.macd ≤ prev.macd_signal) ||
   (latest.close > latest.vwap && prev.close ≤ prev.vwap)) ||
  ((latest.rsi > 70 : Bool) ||
   (latest.sma_20 < latest.sma_50 && prev.sma_20 ≥ prev.sma_50) ||
   (latest.macd < latest.macd_signal && prev.macd ≥ prev.macd_signal) ||
   (latest.close < latest.vwap && prev.close ≥ prev.vwap))

/-- A 50-bar window whose last bar has RSI 20 (oversold, bullish flag) while
its close falls below VWAP after the previous close sat at VWAP (bearish
flag): a tick on which BOTH directions are flagged. -/
def df8 : List SRow :=
  List.replicate 49 { defSRow with close := 100, vwap := 100 } ++
    [{ defSRow with rsi := 20, close := 90, vwap := 100 }]

/-- The signal the engine emits on `df8`: bullish priority despite the
bearish VWAP flag. -/
def sig8 : Signal :=
  { type := SigType.long, strength := 3/2, price := 90,
    stop_loss := 90 * (98/100), take_profit := 90 * (103/100),
    reasons := ["RSI oversold", "Price crossed below VWAP"] }

/-- A quiet 49-bar history (RSI 50, flat SMA/MACD, close at VWAP, volume
10). -/
def rowQuiet : SRow :=
  { defSRow with rsi := 50, close := 100, vwap := 100, volume := 10 }

/-- A final bar where only the VWAP crossover fires (close 101 over VWAP
100) while volume 1000 far exceeds the trailing 20-bar mean. -/
def rowVwapUp : SRow :=
  { rowQuiet with close := 101, volume := 1000 }

/-- A 50-bar window on which only the VWAP rule fires, with high latest
volume. -/
def df10 : List SRow :=
  List.replicate 49 rowQuiet ++ [rowVwapUp]

/-! ## The indicator pipeline (`BinanceWebSocketClient.calculate_indicators`,
binance_ws_client.py lines 122-172)

The DataFrame columns are object-dtype series whose cells are a float
(`num`), a missing value (`nan`), or a non-numeric object such as a string
(`nonNum`).  The pipeline mutates `self.df` column by column inside one
`try` block; the `except` clause only logs, so a failure part-way leaves the
columns already assigned in their new state. -/

inductive Val where
  | num (q : ℚ)
  | nan
  | nonNum
deriving DecidableEq, Repr

/-- The numeric columns of `self.df` (the `timestamp`, `trades` and
`close_time` columns are never read by the pipeline or the signal engine and
are omitted). -/
structure DFrame where
  «open» : List Val
  high : List Val
  low : List Val
  close : List Val
  volume : List Val
  quote_volume : List Val
  rsi : List Val
  sma_20 : List Val
  sma_50 : List Val
  macd : List Val
  macd_signal : List Val
  macd_diff : List Val
  vwap : List Val
deriving DecidableEq, Repr

/-- `pd.Series.fillna(method='ffill')` on one column: each `nan` cell takes
the most recent earlier non-`nan` cell; leading `nan`s stay. -/
def ffillCol : Option Val → List Val → List Val
  | _, [] => []
  | last, Val.nan :: t =>
    (match last with | some w => w | none => Val.nan) :: ffillCol last t
  | _, v :: t => v :: ffillCol (some v) t

/-- `self.df = self.df.fillna(method='ffill')` (line 126). -/
def ffillFrame (df : DFrame) : DFrame :=
  { «open» := ffillCol none df.«open», high := ffillCol none df.high,
    low := ffillCol none df.low, close := ffillCol none df.close,
    volume := ffillCol none df.volume,
    quote_volume := ffillCol none df.quote_volume,
    rsi := ffillCol none df.rsi, sma_20 := ffillCol none df.sma_20,
    sma_50 := ffillCol none df.sma_50, macd := ffillCol none df.macd,
    macd_signal := ffillCol none df.macd_signal,
    macd_diff := ffillCol none df.macd_diff,
    vwap := ffillCol none df.vwap }

/-- `self.df = self.df.fillna(0)` (line 152) on one column. -/
def fill0Col (c : List Val) : List Val :=
  c.map fun v => match v with | Val.nan => Val.num 0 | w => w

def fill0Frame (df : DFrame) : DFrame :=
  { «open» := fill0Col df.«open», high := fill0Col df.high,
    low := fill0Col df.low, close := fill0Col df.close,
    volume := fill0Col df.volume, quote_volume := fill0Col df.quote_volume,
    rsi := fill0Col df.rsi, sma_20 := fill0Col df.sma_20,
    sma_50 := fill0Col df.sma_50, macd := fill0Col df.macd,
    macd_signal := fill0Col df.macd_signal, macd_diff := fill0Col df.macd_diff,
    vwap := fill0Col df.vwap }

/-- A column containing a non-numeric object: arithmetic on it raises a
`TypeError` inside the `ta` indicator (or inside `astype(float)`). -/
def hasNonNum (c : List Val) : Bool :=
  c.any fun v => match v with | Val.nonNum => true | _ => false

/-- All cells numeric: the fully-defined series the closed-form indicator
formulas apply to. -/
def colVals? (c : List Val) : Option (List ℚ) :=
  c.mapM fun v => match v with | Val.num q => some q | _ => none

/-- Exponential smoothing recursion shared by EMA and Wilder smoothing:
`e' = α·x + (1−α)·e`. -/
def emaAux (α : ℚ) : ℚ → List ℚ → List ℚ
  | _, [] => []
  | e, x :: t => (α * x + (1 - α) * e) :: emaAux α (α * x + (1 - α) * e) t

/-- `Modelled from the spec:` EMA(n) over a fully-defined series, seeded
with the first sample (the `ta` library implementing `MACD`/`RSIIndicator`
is outside the repository; spec section 4.3 gives the closed forms).  Only
the success/failure behaviour of the pipeline matters to the claims, not
these values. -/
def emaList (n : ℕ) (qs : List ℚ) : List ℚ :=
  match qs with
  | [] => []
  | x :: t => x :: emaAux (2 / (n + 1)) x t

/-- `Modelled from the spec:` Wilder's smoothed average (α = 1/14) of the
gain/loss series used by RSI(14). -/
def wilderSmooth (gs : List ℚ) : List ℚ :=
  match gs with
  | [] => []
  | g :: t => g :: emaAux (1 / 14) g t

/-- `Modelled from the spec:` RSI(14) from Wilder's smoothed gains/losses;
bars lacking 14 periods of history are undefined (`nan`). -/
def rsiNums (qs : List ℚ) : List Val :=
  let ds := List.zipWith (fun a b => a - b) qs.tail qs
  let ags := wilderSmooth (ds.map fun d => max d 0)
  let als := wilderSmooth (ds.map fun d => max (-d) 0)
  (List.range qs.length).map fun i =>
    if i < 14 then Val.nan
    else
      let ag := ags.getD (i - 1) 0
      let al := als.getD (i - 1) 0
      if al = 0 then Val.num 100
      else Val.num (100 - 100 / (1 + ag / al))

/-- `Modelled from the spec:` trailing arithmetic mean of close over `n`
bars, undefined before `n` bars exist. -/
def smaNums (n : ℕ) (qs : List ℚ) : List Val :=
  (List.range qs.length).map fun i =>
    if i + 1 < n then Val.nan
    else Val.num ((((qs.take (i + 1)).drop (i + 1 - n)).sum) / n)

/-- `Modelled from the spec:` MACD line EMA(12)−EMA(26). -/
def macdNums (qs : List ℚ) : List ℚ :=
  List.zipWith (fun a b => a - b) (emaList 12 qs) (emaList 26 qs)

def macdSignalNums (qs : List ℚ) : List ℚ :=
  emaList 9 (macdNums qs)

def macdDiffNums (qs : List ℚ) : List ℚ :=
  List.zipWith (fun a b => a - b) (macdNums qs) (macdSignalNums qs)

/-- `Modelled from the spec:` VWAP as cumulative (typical price × volume)
over cumulative volume, no reset while the window is non-empty. -/
def vwapAux : ℚ → ℚ → List (ℚ × ℚ) → List Val
  | _, _, [] => []
  | spv, sv, (pv, v) :: t =>
    (if sv + v = 0 then Val.num 0 else Val.num ((spv + pv) / (sv + v))) ::
      vwapAux (spv + pv) (sv + v) t

def vwapNums (hs ls cs vs : List ℚ) : List Val :=
  let tps := List.zipWith (fun hl c => (hl.1 + hl.2 + c) / 3)
    (List.zipWith Prod.mk hs ls) cs
  vwapAux 0 0 (List.zipWith Prod.mk (List.zipWith (· * ·) tps vs) vs)

/-- Column written by `RSIIndicator(close=...).rsi()`: closed form on a
fully-defined series, all-`nan` when the series has missing values (the
library propagates NaN without raising). -/
def rsiColumn (close : List Val) : List Val :=
  match colVals? close with
  | some qs => rsiNums qs
  | none => close.map fun _ => Val.nan

def smaColumn (n : ℕ) (close : List Val) : List Val :=
  match colVals? close with
  | some qs => smaNums n qs
  | none => close.map fun _ => Val.nan

def macdColumn (close : List Val) : List Val :=
  match colVals? close with
  | some qs => (macdNums qs).map Val.num
  | none => close.map fun _ => Val.nan

def macdSignalColumn (close : List Val) : List Val :=
  match colVals? close with
  | some qs => (macdSignalNums qs).map Val.num
  | none => close.map fun _ => Val.nan

def macdDiffColumn (close : List Val) : List Val :=
  match colVals? close with
  | some qs => (macdDiffNums qs).map Val.num
  | none => close.map fun _ => Val.nan

def vwapColumn (high low close volume : List Val) : List Val :=
  match colVals? high, colVals? low, colVals? close, colVals? volume with
  | some hs, some ls, some cs, some vs => vwapNums hs ls cs vs
  | _, _, _, _ => high.map fun _ => Val.nan

/-- Whether `astype(float)` over the `numeric_columns` list (lines 157-160)
raises: it does exactly when some numeric column still holds a non-numeric
object. -/
def astypeRaises (df : DFrame) : Bool :=
  hasNonNum df.«open» || hasNonNum df.high || hasNonNum df.low ||
  hasNonNum df.close || hasNonNum df.volume || hasNonNum df.quote_volume ||
  hasNonNum df.rsi || hasNonNum df.sma_20 || hasNonNum df.sma_50 ||
  hasNonNum df.macd || hasNonNum df.macd_signal || hasNonNum df.macd_diff ||
  hasNonNum df.vwap

/-- The `try` block of `BinanceWebSocketClient.calculate_indicators` (lines
124-167), statement by statement.  Returns the frame as left by the block
together with a flag recording whether an exception was raised part-way.
The indicator constructors raise (`TypeError`) exactly when an input column
holds a non-numeric object; missing values merely propagate as `nan`.
`data_queue.put`, the logging calls and `generate_trading_signals` (lines
163-167) read but never mutate the frame, so they are not reflected in the
returned frame. -/
def calculateIndicatorsBody (dataQueueSet : Bool) (df : DFrame) :
    DFrame × Bool :=
  -- self.df = self.df.fillna(method='ffill')
  let df := ffillFrame df
  -- rsi_indicator = RSIIndicator(close=self.df['close']); self.df['rsi'] = ...
  if hasNonNum df.close then (df, true)
  else
    let df := { df with rsi := rsiColumn df.close }
    -- self.df['sma_20'] / self.df['sma_50']
    let df := { df with sma_20 := smaColumn 20 df.close }
    let df := { df with sma_50 := smaColumn 50 df.close }
    -- macd = MACD(close=self.df['close']); three column assignments
    let df := { df with macd := macdColumn df.close }
    let df := { df with macd_signal := macdSignalColumn df.close }
    let df := { df with macd_diff := macdDiffColumn df.close }
    -- vwap = VolumeWeightedAveragePrice(high=..., low=..., close=..., volume=...)
    if hasNonNum df.high || hasNonNum df.low || hasNonNum df.volume then
      (df, true)
    else
      let df := { df with vwap := vwapColumn df.high df.low df.close df.volume }
      -- self.df = self.df.fillna(0)
      let df := fill0Frame df
      -- if self.data_queue is not None: astype(float) over numeric_columns
      if dataQueueSet && astypeRaises df then (df, true)
      else (df, false)

/-- `BinanceWebSocketClient.calculate_indicators` as seen by its caller: the
`except` clause (lines 169-172) only logs, so the method always returns
normally with whatever frame the `try` block left behind. -/
def calculate_indicators (dataQueueSet : Bool) (df : DFrame) : DFrame :=
  (calculateIndicatorsBody dataQueueSet df).1

/-- A one-row frame with previously published indicator values (RSI 50,
VWAP 7) whose `high` cell holds a non-numeric object: the recompute runs the
RSI/SMA/MACD steps and then fails at the VWAP step. -/
def df4 : DFrame :=
  { «open» := [Val.num 1], high := [Val.nonNum], low := [Val.num 1],
    close := [Val.num 1], volume := [Val.num 1],
    quote_volume := [Val.num 1], rsi := [Val.num 50],
    sma_20 := [Val.num 0], sma_50 := [Val.num 0], macd := [Val.num 0],
    macd_signal := [Val.num 0], macd_diff := [Val.num 0],
    vwap := [Val.num 7] }

/-! ## Supporting lemmas -/

lemma onMessageAppend_eq_suffix (df : List CRow) (r : CRow) :
    onMessageAppend df r =
      (df ++ [r]).drop ((df ++ [r]).length - windowCap) := by
  unfold onMessageAppend
  by_cases h : (df ++ [r]).length > windowCap
  · rw [if_pos h]
  · rw [if_neg h]
    have h0 : (df ++ [r]).length - windowCap = 0 := by
      simp only [gt_iff_lt, not_lt] at h
      omega
    rw [h0, List.drop_zero]

lemma onMessageAppend_length (df : List CRow) (r : CRow) :
    (onMessageAppend df r).length = min (df.length + 1) windowCap := by
  rw [onMessageAppend_eq_suffix]
  simp [List.length_drop]
  omega

/-- The window after a stream is exactly the final suffix (of length at most
1000) of the stream itself. -/
lemma runStream_eq_suffix (msgs : List CRow) :
    runStream msgs = msgs.drop (msgs.length - windowCap) := by
  induction msgs using List.reverseRecOn with
  | nil => simp [runStream]
  | append_singleton pre r ih =>
    have step : runStream (pre ++ [r]) = onMessageAppend (runStream pre) r := by
      unfold runStream
      rw [List.foldl_append]
      rfl
    rw [step, ih, onMessageAppend_eq_suffix]
    have h1 : pre.drop (pre.length - windowCap) ++ [r]
        = (pre ++ [r]).drop (pre.length - windowCap) := by
      rw [List.drop_append_of_le_length (by omega)]
    rw [h1, List.drop_drop]
    have h2 : (pre.drop (pre.length - windowCap) ++ [r]).length
        = min pre.length windowCap + 1 := by
      simp only [List.length_append, List.length_drop, List.length_singleton]
      omega
    rw [h1] at h2
    rw [h2]
    have h3 : pre.length - windowCap + (min pre.length windowCap + 1 - windowCap)
        = (pre ++ [r]).length - windowCap := by
      simp only [List.length_append, List.length_singleton]
      omega
    rw [h3]

lemma runStream_length (msgs : List CRow) :
    (runStream msgs).length = min msgs.length windowCap := by
  rw [runStream_eq_suffix]
  simp [List.length_drop]
  omega

lemma openTimesNonDec_iff_pairwise (l : List CRow) :
    openTimesNonDec l = true ↔ l.Chain' (fun a b => a.open_time ≤ b.open_time) := by
  induction l with
  | nil => simp [openTimesNonDec]
  | cons a t ih =>
    cases t with
    | nil => simp [openTimesNonDec]
    | cons b t' =>
      simp only [openTimesNonDec, Bool.and_eq_true, decide_eq_true_eq,
        List.chain'_cons] at *
      tauto

lemma openTimesNonDec_drop (l : List CRow) (n : ℕ)
    (h : openTimesNonDec l = true) : openTimesNonDec (l.drop n) = true := by
  rw [openTimesNonDec_iff_pairwise] at *
  induction n generalizing l with
  | zero => simpa using h
  | succ k ih =>
    cases l with
    | nil => simp
    | cons a t =>
      simp only [List.drop_succ_cons]
      exact ih t (List.Chain'.tail h)

lemma onClose_attempts (st : ClientState) :
    (onClose st).1.reconnect_attempts =
      if st.reconnect_attempts < websocketConfig.max_reconnect_attempts
      then st.reconnect_attempts + 1 else st.reconnect_attempts := by
  unfold onClose
  by_cases h : st.reconnect_attempts < websocketConfig.max_reconnect_attempts <;>
    simp [h]

lemma onClose_start_iff (st : ClientState) :
    Action.start ∈ (onClose st).2 ↔
      st.reconnect_attempts < websocketConfig.max_reconnect_attempts := by
  unfold onClose
  by_cases h : st.reconnect_attempts < websocketConfig.max_reconnect_attempts <;>
    simp [h]

lemma consecCloses_count (k : ℕ) (st : ClientState) :
    (consecCloses k st).2 =
      min k (websocketConfig.max_reconnect_attempts - st.reconnect_attempts) := by
  induction k generalizing st with
  | zero => simp [consecCloses]
  | succ n ih =>
    simp only [consecCloses]
    rw [ih]
    by_cases h : st.reconnect_attempts < websocketConfig.max_reconnect_attempts
    · rw [if_pos ((onClose_start_iff st).mpr h)]
      rw [onClose_attempts, if_pos h]
      omega
    · rw [if_neg (fun hmem => h ((onClose_start_iff st).mp hmem))]
      rw [onClose_attempts, if_neg h]
      omega

lemma check_risk_limits_false_iff (s : TSState) :
    check_risk_limits s = false ↔
      (10 ≤ s.daily_trades ∨ 5 ≤ s.daily_loss ∨
       ((s.in_long_position = true ∨ s.in_short_position = true) ∧
         riskConfig.max_open_positions ≤ 1)) := by
  unfold check_risk_limits
  have h1 : riskConfig.max_daily_trades = 10 := rfl
  have h2 : riskConfig.max_daily_loss = 5 := rfl
  have h3 : riskConfig.max_open_positions = 1 := rfl
  rw [h1, h2, h3]
  split_ifs with ha hb hc <;> simp_all

lemma check_risk_limits_true_lt (s : TSState)
    (h : check_risk_limits s = true) : s.daily_trades < 10 := by
  by_contra hge
  have : check_risk_limits s = false :=
    (check_risk_limits_false_iff s).mpr (Or.inl (by omega))
  simp [this] at h

/-- Exhaustive shape analysis of `generate_signals`: it either leaves the
state untouched with no order action, or (with the risk gate passed) opens a
long position, closes a long position, or closes a short position.  No
branch ever opens a short position. -/
lemma generate_signals_cases (s : TSState) (r1 r2 r3 : ℚ) :
    generate_signals s r1 r2 r3 = (s, []) ∨
    (check_risk_limits s = true ∧ s.in_long_position = false ∧
      s.in_short_position = false ∧
      generate_signals s r1 r2 r3 =
        ({ s with in_long_position := true,
                  daily_trades := s.daily_trades + 1 },
         [TAction.placeLongOrder])) ∨
    (check_risk_limits s = true ∧ s.in_long_position = true ∧
      generate_signals s r1 r2 r3 =
        ({ s with in_long_position := false }, [TAction.closeLongPosition])) ∨
    (check_risk_limits s = true ∧ s.in_short_position = true ∧
      generate_signals s r1 r2 r3 =
        ({ s with in_short_position := false }, [TAction.closeShortPosition])) := by
  rcases hlr : s.last_rsi with _ | a
  · left; unfold generate_signals; rw [hlr]
  rcases hlm : s.last_macd with _ | b
  · left; unfold generate_signals; rw [hlr, hlm]
  rcases hlms : s.last_macd_signal with _ | c
  · left; unfold generate_signals; rw [hlr, hlm, hlms]
  have hgen : generate_signals s r1 r2 r3 =
      (if !check_risk_limits s then (s, [])
       else if !s.in_long_position && !s.in_short_position then
         if (a > rsiOversold && r1 ≤ rsiOversold) &&
            (b ≤ c && r2 > r3) then
           ({ s with in_long_position := true,
                     daily_trades := s.daily_trades + 1 },
            [TAction.placeLongOrder])
         else (s, [])
       else if s.in_long_position then
         if (a < rsiOverbought && r1 ≥ rsiOverbought) ||
            (b ≥ c && r2 < r3) then
           ({ s with in_long_position := false }, [TAction.closeLongPosition])
         else (s, [])
       else if !s.in_long_position && !s.in_short_position then
         if (a < rsiOverbought && r1 ≥ rsiOverbought) &&
            (b ≥ c && r2 < r3) then
           ({ s with in_short_position := true,
                     daily_trades := s.daily_trades + 1 },
            [TAction.placeShortOrder])
         else (s, [])
       else if s.in_short_position then
         if (a > rsiOversold && r1 ≤ rsiOversold) ||
            (b ≤ c && r2 > r3) then
           ({ s with in_short_position := false }, [TAction.closeShortPosition])
         else (s, [])
       else (s, [])) := by
    unfold generate_signals
    rw [hlr, hlm, hlms]
  rw [hgen]
  by_cases hrisk : check_risk_limits s = true
  · rw [hrisk]
    simp only [Bool.not_true, Bool.false_eq_true, if_false]
    rcases hil : s.in_long_position with _ | _ <;>
      rcases hish : s.in_short_position with _ | _ <;>
      simp only [Bool.not_false, Bool.not_true, Bool.and_self,
        Bool.and_false, Bool.false_and, Bool.true_and, Bool.and_true,
        if_true, Bool.false_eq_true, if_false] <;>
      split_ifs <;> simp_all
  · have hf : check_risk_limits s = false := by
      cases h : check_risk_limits s <;> simp_all
    rw [hf]
    left
    rfl

lemma rsiRule_long_iff (l : SRow) (f : Flags) :
    (rsiRule l f).long_signal = true ↔
      (f.long_signal = true ∨ l.rsi < 30) := by
  unfold rsiRule
  split_ifs with h1 h2
  · simp [h1]
  · constructor
    · exact Or.inl
    · rintro (h | h)
      · exact h
      · exact absurd h h1
  · constructor
    · exact Or.inl
    · rintro (h | h)
      · exact h
      · exact absurd h h1

lemma rsiRule_short_iff (l : SRow) (f : Flags) :
    (rsiRule l f).short_signal = true ↔
      (f.short_signal = true ∨ l.rsi > 70) := by
  unfold rsiRule
  split_ifs with h1 h2
  · constructor
    · exact Or.inl
    · rintro (h | h)
      · exact h
      · linarith
  · simp [h2]
  · constructor
    · exact Or.inl
    · rintro (h | h)
      · exact h
      · exact absurd h h2

lemma smaRule_long_iff (l p : SRow) (f : Flags) :
    (smaRule l p f).long_signal = true ↔
      (f.long_signal = true ∨
        (l.sma_20 > l.sma_50 ∧ p.sma_20 ≤ p.sma_50)) := by
  unfold smaRule
  split_ifs with h1 h2 <;>
    simp only [Bool.and_eq_true, decide_eq_true_eq] at *
  · simp [h1]
  · constructor
    · exact Or.inl
    · rintro (h | h)
      · exact h
      · exact absurd h h1
  · constructor
    · exact Or.inl
    · rintro (h | h)
      · exact h
      · exact absurd h h1

lemma smaRule_short_iff (l p : SRow) (f : Flags) :
    (smaRule l p f).short_signal = true ↔
      (f.short_signal = true ∨
        (l.sma_20 < l.sma_50 ∧ p.sma_20 ≥ p.sma_50)) := by
  unfold smaRule
  split_ifs with h1 h2 <;>
    simp only [Bool.and_eq_true, decide_eq_true_eq] at *
  · constructor
    · exact Or.inl
    · rintro (h | h)
      · exact h
      · linarith [h1.1, h.1]
  · simp [h2]
  · constructor
    · exact Or.inl
    · rintro (h | h)
      · exact h
      · exact absurd h h2

lemma macdRule_long_iff (l p : SRow) (f : Flags) :
    (macdRule l p f).long_signal = true ↔
      (f.long_signal = true ∨
        (l.macd > l.macd_signal ∧ p.macd ≤ p.macd_signal)) := by
  unfold macdRule
  split_ifs with h1 h2 <;>
    simp only [Bool.and_eq_true, decide_eq_true_eq] at *
  · simp [h1]
  · constructor
    · exact Or.inl
    · rintro (h | h)
      · exact h
      · exact absurd h h1
  · constructor
    · exact Or.inl
    · rintro (h | h)
      · exact h
      · exact absurd h h1

lemma macdRule_short_iff (l p : SRow) (f : Flags) :
    (macdRule l p f).short_signal = true ↔
      (f.short_signal = true ∨
        (l.macd < l.macd_signal ∧ p.macd ≥ p.macd_signal)) := by
  unfold macdRule
  split_ifs with h1 h2 <;>
    simp only [Bool.and_eq_true, decide_eq_true_eq] at *
  · constructor
    · exact Or.inl
    · rintro (h | h)
      · exact h
      · linarith [h1.1, h.1]
  · simp [h2]
  · constructor
    · exact Or.inl
    · rintro (h | h)
      · exact h
      · exact absurd h h2

lemma volumeRule_flags (l : SRow) (m : ℚ) (f : Flags) :
    (volumeRule l m f).long_signal = f.long_signal ∧
    (volumeRule l m f).short_signal = f.short_signal := by
  unfold volumeRule
  split_ifs <;> exact ⟨rfl, rfl⟩

lemma vwapRule_long_iff (l p : SRow) (f : Flags) :
    (vwapRule l p f).long_signal = true ↔
      (f.long_signal = true ∨ (l.close > l.vwap ∧ p.close ≤ p.vwap)) := by
  unfold vwapRule
  split_ifs with h1 h2 <;>
    simp only [Bool.and_eq_true, decide_eq_true_eq] at *
  · simp [h1]
  · constructor
    · exact Or.inl
    · rintro (h | h)
      · exact h
      · exact absurd h h1
  · constructor
    · exact Or.inl
    · rintro (h | h)
      · exact h
      · exact absurd h h1

lemma vwapRule_short_iff (l p : SRow) (f : Flags) :
    (vwapRule l p f).short_signal = true ↔
      (f.short_signal = true ∨ (l.close < l.vwap ∧ p.close ≥ p.vwap)) := by
  unfold vwapRule
  split_ifs with h1 h2 <;>
    simp only [Bool.and_eq_true, decide_eq_true_eq] at *
  · constructor
    · exact Or.inl
    · rintro (h | h)
      · exact h
      · linarith [h1.1, h.1]
  · simp [h2]
  · constructor
    · exact Or.inl
    · rintro (h | h)
      · exact h
      · exact absurd h h2

lemma signalFlags_long_iff (df : List SRow) :
    (signalFlags df).long_signal = true ↔
      ((latestRow df).rsi < 30 ∨
       ((latestRow df).sma_20 > (latestRow df).sma_50 ∧
         (prevRow df).sma_20 ≤ (prevRow df).sma_50) ∨
       ((latestRow df).macd > (latestRow df).macd_signal ∧
         (prevRow df).macd ≤ (prevRow df).macd_signal) ∨
       ((latestRow df).close > (latestRow df).vwap ∧
         (prevRow df).close ≤ (prevRow df).vwap)) := by
  unfold signalFlags
  rw [vwapRule_long_iff, (volumeRule_flags _ _ _).1, macdRule_long_iff,
    smaRule_long_iff, rsiRule_long_iff]
  simp only [initFlags, Bool.false_eq_true, false_or]
  tauto

lemma signalFlags_short_iff (df : List SRow) :
    (signalFlags df).short_signal = true ↔
      ((latestRow df).rsi > 70 ∨
       ((latestRow df).sma_20 < (latestRow df).sma_50 ∧
         (prevRow df).sma_20 ≥ (prevRow df).sma_50) ∨
       ((latestRow df).macd < (latestRow df).macd_signal ∧
         (prevRow df).macd ≥ (prevRow df).macd_signal) ∨
       ((latestRow df).close < (latestRow df).vwap ∧
         (prevRow df).close ≥ (prevRow df).vwap)) := by
  unfold signalFlags
  rw [vwapRule_short_iff, (volumeRule_flags _ _ _).2, macdRule_short_iff,
    smaRule_short_iff, rsiRule_short_iff]
  simp only [initFlags, Bool.false_eq_true, false_or]
  tauto

/-- Emission shape of the engine once the 50-bar guard has passed. -/
lemma generate_trading_signals_of_len (df : List SRow)
    (h : ¬ df.length < 50) :
    generate_trading_signals df =
      (if (signalFlags df).long_signal || (signalFlags df).short_signal then
        some
          { type := if (signalFlags df).long_signal then SigType.long
                    else SigType.short
            strength := (signalFlags df).signal_strength
            price := (latestRow df).close
            stop_loss :=
              if (signalFlags df).long_signal then
                (latestRow df).close * (98/100)
              else (latestRow df).close * (102/100)
            take_profit :=
              if (signalFlags df).long_signal then
                (latestRow df).close * (103/100)
              else (latestRow df).close * (97/100)
            reasons := (signalFlags df).signal_reasons }
      else none) := by
  unfold generate_trading_signals
  rw [if_neg h]

lemma rollingMean_replicate (r r' : SRow) :
    rollingVolumeMean20 (List.replicate 49 r ++ [r']) =
      (19 * r.volume + r'.volume) / 20 := by
  unfold rollingVolumeMean20
  have h1 : (List.replicate 49 r ++ [r']).length = 50 := by simp
  rw [h1, show (50 - 20 : ℕ) = 30 from rfl]
  have h2 : (List.replicate 49 r ++ [r']).drop 30
      = List.replicate 19 r ++ [r'] := by
    rw [List.drop_append_of_le_length (by simp), List.drop_replicate]
  rw [h2, List.map_append, List.sum_append, List.map_replicate,
    List.sum_replicate, nsmul_eq_mul]
  norm_num

lemma latestRow_df8 :
    latestRow df8 = { defSRow with rsi := 20, close := 90, vwap := 100 } :=
  rfl

lemma prevRow_df8 :
    prevRow df8 = { defSRow with close := 100, vwap := 100 } :=
  rfl

lemma signalFlags_df8 :
    signalFlags df8 =
      { long_signal := true, short_signal := true, signal_strength := 3/2,
        signal_reasons := ["RSI oversold", "Price crossed below VWAP"] } := by
  have hm : rollingVolumeMean20 df8 = 0 := by
    have h := rollingMean_replicate { defSRow with close := 100, vwap := 100 }
      { defSRow with rsi := 20, close := 90, vwap := 100 }
    rw [show df8 = List.replicate 49 { defSRow with close := 100, vwap := 100 }
        ++ [{ defSRow with rsi := 20, close := 90, vwap := 100 }] from rfl, h]
    norm_num [defSRow]
  unfold signalFlags
  rw [latestRow_df8, prevRow_df8, hm]
  norm_num [rsiRule, smaRule, macdRule, volumeRule, vwapRule, initFlags,
    defSRow]

lemma generate_trading_signals_df8 :
    generate_trading_signals df8 = some sig8 := by
  rw [generate_trading_signals_of_len df8 (by decide), signalFlags_df8,
    latestRow_df8]
  rfl

lemma latestRow_df10 : latestRow df10 = rowVwapUp := rfl

lemma prevRow_df10 : prevRow df10 = rowQuiet := rfl

lemma volume_exceeds_mean_df10 :
    (latestRow df10).volume > rollingVolumeMean20 df10 := by
  have hm : rollingVolumeMean20 df10 =
      (19 * rowQuiet.volume + rowVwapUp.volume) / 20 :=
    rollingMean_replicate rowQuiet rowVwapUp
  rw [latestRow_df10, hm]
  norm_num [rowQuiet, rowVwapUp, defSRow]

/-! ## Claim theorems -/

/-- C9: for every sequence of processed kline messages the candle window
never holds more than 1000 rows, and whenever an append pushes the size past
1000 the oldest rows are evicted so that exactly the most recent 1000
remain (the window is always the final suffix, of length at most 1000, of
everything appended). -/
theorem C9_window_bounded (msgs df : List CRow) (r : CRow) :
    (runStream msgs).length ≤ 1000 ∧
    (onMessageAppend df r).length ≤ 1000 ∧
    onMessageAppend df r = (df ++ [r]).drop ((df ++ [r]).length - 1000) ∧
    runStream msgs = msgs.drop (msgs.length - 1000) := by
  refine ⟨?_, ?_, ?_, ?_⟩
  · rw [runStream_length]; exact min_le_right _ _
  · rw [onMessageAppend_length]; exact min_le_right _ _
  · exact onMessageAppend_eq_suffix df r
  · exact runStream_eq_suffix msgs

/-- C1 counterexample: a candle whose `open_time` equals the current tail's
is appended as a second row rather than replacing the tail, and a candle
older than the tail is appended rather than dropped, after which the
window's open times are no longer non-decreasing.  This contradicts the
claimed replace/drop behaviour of the append path at a concrete input. -/
theorem C1_append_counterexample :
    onMessageAppend [mkCRow 100] (mkCRow 100) = [mkCRow 100, mkCRow 100] ∧
    onMessageAppend [mkCRow 100] (mkCRow 50) = [mkCRow 100, mkCRow 50] ∧
    openTimesNonDec (onMessageAppend [mkCRow 100] (mkCRow 50)) = false := by
  refine ⟨?_, ?_, ?_⟩ <;> decide

/-- C1 amended: every incoming kline candle is appended as a new tail row
unconditionally — no open-time comparison, replacement or dropping happens —
so the window (the trailing suffix of at most 1000 appended rows) has
non-decreasing `open_time` exactly in so far as the incoming stream itself
does. -/
theorem C1_append_amended (df : List CRow) (r : CRow) (msgs : List CRow)
    (hmono : openTimesNonDec msgs = true) :
    onMessageAppend df r = (df ++ [r]).drop ((df ++ [r]).length - 1000) ∧
    openTimesNonDec (runStream msgs) = true := by
  refine ⟨onMessageAppend_eq_suffix df r, ?_⟩
  rw [runStream_eq_suffix]
  exact openTimesNonDec_drop msgs _ hmono

/-- C1 witness: the amended append semantics at a concrete window and a
concrete non-decreasing stream. -/
theorem C1_append_amended_witness :
    onMessageAppend [mkCRow 1] (mkCRow 2) =
      (([mkCRow 1] ++ [mkCRow 2]).drop (([mkCRow 1] ++ [mkCRow 2]).length - 1000)) ∧
    openTimesNonDec (runStream [mkCRow 1, mkCRow 2]) = true :=
  C1_append_amended [mkCRow 1] (mkCRow 2) [mkCRow 1, mkCRow 2] (by decide)

/-- C2 counterexample: from a subscribed state (transport open, connected,
no reconnect attempts spent), `unsubscribe` does send the UNSUBSCRIBE frame
and close the transport, but the close callback the transport fires for that
very close runs the common reconnect path: the resulting trace ends with a
sleep of `reconnect_delay` and a fresh `start`, i.e. a reconnect attempt IS
made as a consequence of that close. -/
theorem C2_unsubscribe_counterexample :
    (unsubscribeThenClose ⟨true, true, 0⟩).2 =
      [Action.send "UNSUBSCRIBE", Action.close, Action.sleep 5, Action.start] ∧
    Action.start ∈ (unsubscribeThenClose ⟨true, true, 0⟩).2 := by
  refine ⟨?_, ?_⟩ <;> decide

/-- C2 amended: after a successful subscription, `unsubscribe` sends the
UNSUBSCRIBE control message, closes the transport and leaves the client
flagged disconnected; however the close handler runs for this voluntary
close exactly as for any other, so a reconnect attempt is made as a
consequence of that close whenever `reconnect_attempts` is still below
`max_reconnect_attempts`, and is suppressed only once the attempt budget is
exhausted. -/
theorem C2_unsubscribe_amended (st : ClientState)
    (hws : st.ws_open = true) (hconn : st.is_connected = true) :
    (unsubscribe st).2 = [Action.send "UNSUBSCRIBE", Action.close] ∧
    (unsubscribe st).1.is_connected = false ∧
    (Action.start ∈ (unsubscribeThenClose st).2 ↔ st.reconnect_attempts < 5) := by
  have hu : unsubscribe st =
      ({ st with is_connected := false },
       [Action.send "UNSUBSCRIBE", Action.close]) := by
    unfold unsubscribe
    rw [hws, hconn]
    simp
  refine ⟨by rw [hu], by rw [hu], ?_⟩
  unfold unsubscribeThenClose
  rw [hu]
  have hstart := onClose_start_iff { st with is_connected := false }
  simp only [List.mem_append, List.mem_cons, List.not_mem_nil] at *
  constructor
  · intro h
    rcases h with h | h
    · rcases h with h | h | h <;> simp_all
    · exact hstart.mp h
  · intro h
    exact Or.inr (hstart.mpr h)

/-- C2 witness: the amended behaviour at a concrete connected state with no
reconnect attempts spent. -/
theorem C2_unsubscribe_amended_witness :
    (unsubscribe ⟨true, true, 2⟩).2 = [Action.send "UNSUBSCRIBE", Action.close] ∧
    (unsubscribe ⟨true, true, 2⟩).1.is_connected = false ∧
    (Action.start ∈ (unsubscribeThenClose ⟨true, true, 2⟩).2 ↔ (2 : ℕ) < 5) :=
  C2_unsubscribe_amended ⟨true, true, 2⟩ (by decide) (by decide)

/-- C6: on every connection close, the close handler retries exactly when
`reconnect_attempts < max_reconnect_attempts` (5), in which case it
increments the counter and sleeps `reconnect_delay` (5 s) before starting
the new attempt; a successful open resets the counter to zero; the counter
never exceeds the limit, and a run of `k` consecutive closes from a state
with `a` attempts already spent performs exactly `min k (5 − a)` reconnect
attempts — in particular at most 5 consecutive reconnect attempts ever
occur. -/
theorem C6_reconnect_policy (st : ClientState) (k : ℕ)
    (hle : st.reconnect_attempts ≤ 5) :
    (onClose st).1.reconnect_attempts ≤ 5 ∧
    (Action.start ∈ (onClose st).2 ↔ st.reconnect_attempts < 5) ∧
    (st.reconnect_attempts < 5 →
      (onClose st).2 = [Action.sleep 5, Action.start] ∧
      (onClose st).1.reconnect_attempts = st.reconnect_attempts + 1) ∧
    (onOpen st).1.reconnect_attempts = 0 ∧
    (consecCloses k st).2 = min k (5 - st.reconnect_attempts) := by
  have hmax : websocketConfig.max_reconnect_attempts = 5 := rfl
  refine ⟨?_, ?_, ?_, ?_, ?_⟩
  · rw [onClose_attempts, hmax]
    split <;> omega
  · rw [onClose_start_iff, hmax]
  · intro h
    constructor
    · unfold onClose
      rw [hmax, if_pos h]
      rfl
    · rw [onClose_attempts, hmax, if_pos h]
  · unfold onOpen
    rfl
  · rw [consecCloses_count, hmax]

/-- C6 witness: the reconnect policy instantiated at a state with 3 spent
attempts and 7 induced closes (4 = min 7 (5 − 3) + 2 further retries never
happen). -/
theorem C6_reconnect_policy_witness :
    (onClose ⟨false, false, 3⟩).1.reconnect_attempts ≤ 5 ∧
    (Action.start ∈ (onClose ⟨false, false, 3⟩).2 ↔ (3 : ℕ) < 5) ∧
    ((3 : ℕ) < 5 →
      (onClose ⟨false, false, 3⟩).2 = [Action.sleep 5, Action.start] ∧
      (onClose ⟨false, false, 3⟩).1.reconnect_attempts = 3 + 1) ∧
    (onOpen ⟨false, false, 3⟩).1.reconnect_attempts = 0 ∧
    (consecCloses 7 ⟨false, false, 3⟩).2 = min 7 (5 - 3) :=
  C6_reconnect_policy ⟨false, false, 3⟩ 7 (by decide)

/-- C3: the position-state policy does enter long positions only on the
RSI-cross-below-oversold AND MACD-cross-above conjunction (second conjunct
shows the symmetric long entry firing), but the symmetric short entry never
happens: on a tick where RSI crosses above overbought AND MACD crosses below
its signal with no position open and the risk gate passing, the state is
returned unchanged and no order is placed, because the short-entry arm of
the `if/elif` chain repeats the first arm's condition and is unreachable.
The third conjunct proves no reachable branch of the policy ever sets the
short position flag. -/
theorem C3_short_entry_dead :
    generate_signals c3State 75 (-1) 0 = (c3State, []) ∧
    (generate_signals c3LongState 25 1 0).1.in_long_position = true ∧
    (∀ s : TSState, ∀ r1 r2 r3 : ℚ, s.in_short_position = false →
      (generate_signals s r1 r2 r3).1.in_short_position = false) := by
  refine ⟨by decide, by decide, ?_⟩
  intro s r1 r2 r3 hs
  rcases generate_signals_cases s r1 r2 r3 with h | ⟨_, _, hsh, h⟩ |
    ⟨_, _, h⟩ | ⟨_, hsh, h⟩
  · rw [h]; exact hs
  · rw [h]; exact hsh
  · rw [h]; exact hs
  · rw [hs] at hsh; cases hsh

/-- C5: the risk check denies an entry exactly when `daily_trades ≥ 10`, or
`daily_loss ≥ 5`, or a position is open while `max_open_positions ≤ 1`; an
entry is accepted (an order placed) exactly when `daily_trades` is
incremented by 1, which requires the pre-state count below 10; hence
`daily_trades` never exceeds 10 and at 10 the generator returns the state
unchanged — the 11th qualifying entry is rejected. -/
theorem C5_risk_gate (s : TSState) (r1 r2 r3 : ℚ)
    (hdt : s.daily_trades ≤ 10) :
    (check_risk_limits s = false ↔
      (10 ≤ s.daily_trades ∨ 5 ≤ s.daily_loss ∨
       ((s.in_long_position = true ∨ s.in_short_position = true) ∧
         riskConfig.max_open_positions ≤ 1))) ∧
    (generate_signals s r1 r2 r3).1.daily_trades ≤ 10 ∧
    (s.daily_trades = 10 → generate_signals s r1 r2 r3 = (s, [])) ∧
    ((TAction.placeLongOrder ∈ (generate_signals s r1 r2 r3).2 ∨
      TAction.placeShortOrder ∈ (generate_signals s r1 r2 r3).2) ↔
      (generate_signals s r1 r2 r3).1.daily_trades = s.daily_trades + 1) := by
  have hiff := check_risk_limits_false_iff s
  refine ⟨hiff, ?_, ?_, ?_⟩
  · rcases generate_signals_cases s r1 r2 r3 with h | ⟨hrg, _, _, h⟩ |
      ⟨_, _, h⟩ | ⟨_, _, h⟩
    · rw [h]; exact hdt
    · rw [h]
      have := check_risk_limits_true_lt s hrg
      simp only []
      omega
    · rw [h]; exact hdt
    · rw [h]; exact hdt
  · intro h10
    rcases generate_signals_cases s r1 r2 r3 with h | ⟨hrg, _, _, h⟩ |
      ⟨hrg, _, h⟩ | ⟨hrg, _, h⟩
    · exact h
    all_goals
      exact absurd (check_risk_limits_true_lt s hrg) (by omega)
  · rcases generate_signals_cases s r1 r2 r3 with h | ⟨hrg, _, _, h⟩ |
      ⟨_, _, h⟩ | ⟨_, _, h⟩ <;> rw [h] <;> simp

/-- C5 witness: the risk gate and counter behaviour at a concrete state with
the daily-trade budget exhausted. -/
theorem C5_risk_gate_witness :
    (check_risk_limits c5State = false ↔
      (10 ≤ c5State.daily_trades ∨ 5 ≤ c5State.daily_loss ∨
       ((c5State.in_long_position = true ∨ c5State.in_short_position = true) ∧
         riskConfig.max_open_positions ≤ 1))) ∧
    (generate_signals c5State 25 1 0).1.daily_trades ≤ 10 ∧
    (c5State.daily_trades = 10 →
      generate_signals c5State 25 1 0 = (c5State, [])) ∧
    ((TAction.placeLongOrder ∈ (generate_signals c5State 25 1 0).2 ∨
      TAction.placeShortOrder ∈ (generate_signals c5State 25 1 0).2) ↔
      (generate_signals c5State 25 1 0).1.daily_trades =
        c5State.daily_trades + 1) :=
  C5_risk_gate c5State 25 1 0 (by decide)

/-- C7: the multi-rule signal engine emits nothing below 50 bars of history,
and with at least 50 bars it emits a Signal if and only if at least one of
the four directional rules (RSI threshold, SMA crossover, MACD crossover,
VWAP crossover) sets a flag on that tick. -/
theorem C7_emit_iff (df : List SRow) :
    (df.length < 50 → generate_trading_signals df = none) ∧
    (50 ≤ df.length →
      ((generate_trading_signals df).isSome = true ↔
        someRuleFires (latestRow df) (prevRow df) = true)) := by
  constructor
  · intro h
    unfold generate_trading_signals
    rw [if_pos h]
  · intro h
    rw [generate_trading_signals_of_len df (not_lt.mpr h)]
    by_cases hf :
        ((signalFlags df).long_signal || (signalFlags df).short_signal) = true
    · rw [if_pos hf]
      simp only [Option.isSome_some, true_iff]
      rw [Bool.or_eq_true, signalFlags_long_iff, signalFlags_short_iff] at hf
      unfold someRuleFires
      simp only [Bool.or_eq_true, Bool.and_eq_true, decide_eq_true_eq]
      tauto
    · rw [if_neg hf]
      simp only [Option.isSome_none, Bool.false_eq_true, false_iff]
      intro hh
      apply hf
      rw [Bool.or_eq_true, signalFlags_long_iff, signalFlags_short_iff]
      unfold someRuleFires at hh
      simp only [Bool.or_eq_true, Bool.and_eq_true, decide_eq_true_eq] at hh
      tauto

/-- C7 witness: a 1-bar window emits nothing; on the 50-bar window `df10`
the emission test coincides with the rule-fire test. -/
theorem C7_emit_iff_witness :
    generate_trading_signals [defSRow] = none ∧
    ((generate_trading_signals df10).isSome = true ↔
      someRuleFires (latestRow df10) (prevRow df10) = true) :=
  ⟨(C7_emit_iff [defSRow]).1 (by decide),
   (C7_emit_iff df10).2 (by decide)⟩

/-- C8: every emitted Signal gives bullish priority — when both directions
are flagged on one tick its type is long — and carries the fixed levels
`stop_loss = price × 0.98`, `take_profit = price × 1.03` for long and
`stop_loss = price × 1.02`, `take_profit = price × 0.97` for short, where
`price` is the latest close. -/
theorem C8_signal_fields (df : List SRow) (sig : Signal)
    (h : generate_trading_signals df = some sig) :
    ((signalFlags df).long_signal = true ∧
      (signalFlags df).short_signal = true → sig.type = SigType.long) ∧
    sig.price = (latestRow df).close ∧
    (sig.type = SigType.long →
      sig.stop_loss = sig.price * (98/100) ∧
      sig.take_profit = sig.price * (103/100)) ∧
    (sig.type = SigType.short →
      sig.stop_loss = sig.price * (102/100) ∧
      sig.take_profit = sig.price * (97/100)) := by
  by_cases hlen : df.length < 50
  · unfold generate_trading_signals at h
    rw [if_pos hlen] at h
    cases h
  · rw [generate_trading_signals_of_len df hlen] at h
    by_cases hf :
        ((signalFlags df).long_signal || (signalFlags df).short_signal) = true
    · rw [if_pos hf] at h
      have hs := Option.some.inj h
      subst hs
      by_cases hl : (signalFlags df).long_signal = true
      · refine ⟨fun _ => ?_, rfl, fun _ => ?_, fun hty => ?_⟩
        · simp [hl]
        · constructor <;> simp [hl]
        · rw [show ((if (signalFlags df).long_signal = true then SigType.long
              else SigType.short)) = SigType.long from by simp [hl]] at hty
          cases hty
      · refine ⟨fun hboth => absurd hboth.1 hl, rfl, fun hty => ?_, fun _ => ?_⟩
        · rw [show ((if (signalFlags df).long_signal = true then SigType.long
              else SigType.short)) = SigType.short from by simp [hl]] at hty
          cases hty
        · constructor <;> simp [hl]
    · rw [if_neg hf] at h
      cases h

/-- C8 witness: on `df8` both directions are flagged; the theorem yields the
bullish tie-break and the long-side stop/target formulas for the emitted
signal `sig8`. -/
theorem C8_signal_fields_witness :
    sig8.type = SigType.long ∧
    sig8.price = (latestRow df8).close ∧
    sig8.stop_loss = sig8.price * (98/100) ∧
    sig8.take_profit = sig8.price * (103/100) := by
  have h := C8_signal_fields df8 sig8 generate_trading_signals_df8
  have hty := h.1 ⟨by rw [signalFlags_df8], by rw [signalFlags_df8]⟩
  exact ⟨hty, h.2.1, (h.2.2.1 hty).1, (h.2.2.1 hty).2⟩

/-- C10: on a tick where none of the RSI/SMA/MACD rules fires but the VWAP
crossover does, the volume-confirmation bonus is not added even though the
latest volume exceeds the trailing 20-bar mean — the volume block runs
before the VWAP block and sees no flag set — so the emitted Signal's
strength is exactly 0.5. -/
theorem C10_vwap_only_half (df : List SRow) (hlen : 50 ≤ df.length)
    (hr1 : ¬ (latestRow df).rsi < 30) (hr2 : ¬ (latestRow df).rsi > 70)
    (hs1 : ¬ ((latestRow df).sma_20 > (latestRow df).sma_50 ∧
      (prevRow df).sma_20 ≤ (prevRow df).sma_50))
    (hs2 : ¬ ((latestRow df).sma_20 < (latestRow df).sma_50 ∧
      (prevRow df).sma_20 ≥ (prevRow df).sma_50))
    (hm1 : ¬ ((latestRow df).macd > (latestRow df).macd_signal ∧
      (prevRow df).macd ≤ (prevRow df).macd_signal))
    (hm2 : ¬ ((latestRow df).macd < (latestRow df).macd_signal ∧
      (prevRow df).macd ≥ (prevRow df).macd_signal))
    (hv : ((latestRow df).close > (latestRow df).vwap ∧
            (prevRow df).close ≤ (prevRow df).vwap) ∨
          ((latestRow df).close < (latestRow df).vwap ∧
            (prevRow df).close ≥ (prevRow df).vwap))
    (hvol : (latestRow df).volume > rollingVolumeMean20 df) :
    ∃ sig, generate_trading_signals df = some sig ∧ sig.strength = 1/2 := by
  have hlt : ¬ df.length < 50 := not_lt.mpr hlen
  have h1 : rsiRule (latestRow df) initFlags = initFlags := by
    unfold rsiRule
    rw [if_neg hr1, if_neg hr2]
  have h2 : smaRule (latestRow df) (prevRow df) initFlags = initFlags := by
    unfold smaRule
    rw [if_neg (by simp only [Bool.and_eq_true, decide_eq_true_eq,
          not_and]; intro ha hb; exact hs1 ⟨ha, hb⟩),
        if_neg (by simp only [Bool.and_eq_true, decide_eq_true_eq,
          not_and]; intro ha hb; exact hs2 ⟨ha, hb⟩)]
  have h3 : macdRule (latestRow df) (prevRow df) initFlags = initFlags := by
    unfold macdRule
    rw [if_neg (by simp only [Bool.and_eq_true, decide_eq_true_eq,
          not_and]; intro ha hb; exact hm1 ⟨ha, hb⟩),
        if_neg (by simp only [Bool.and_eq_true, decide_eq_true_eq,
          not_and]; intro ha hb; exact hm2 ⟨ha, hb⟩)]
  have h4 : volumeRule (latestRow df) (rollingVolumeMean20 df) initFlags
      = initFlags := by
    unfold volumeRule
    rw [if_pos hvol]
    rfl
  rcases hv with hup | hdown
  · have h5 : signalFlags df =
        { long_signal := true, short_signal := false,
          signal_strength := 1/2,
          signal_reasons := ["Price crossed above VWAP"] } := by
      unfold signalFlags
      rw [h1, h2, h3, h4]
      unfold vwapRule
      rw [if_pos (by
        simp only [Bool.and_eq_true, decide_eq_true_eq]
        exact ⟨hup.1, hup.2⟩)]
      simp [initFlags]
    refine ⟨{ type := SigType.long, strength := 1/2,
              price := (latestRow df).close,
              stop_loss := (latestRow df).close * (98/100),
              take_profit := (latestRow df).close * (103/100),
              reasons := ["Price crossed above VWAP"] }, ?_, rfl⟩
    rw [generate_trading_signals_of_len df hlt, h5]
    rfl
  · have h6 : signalFlags df =
        { long_signal := false, short_signal := true,
          signal_strength := 1/2,
          signal_reasons := ["Price crossed below VWAP"] } := by
      unfold signalFlags
      rw [h1, h2, h3, h4]
      unfold vwapRule
      rw [if_neg (by
            simp only [Bool.and_eq_true, decide_eq_true_eq, not_and]
            intro ha
            linarith [hdown.1]),
          if_pos (by
            simp only [Bool.and_eq_true, decide_eq_true_eq]
            exact ⟨hdown.1, hdown.2⟩)]
      simp [initFlags]
    refine ⟨{ type := SigType.short, strength := 1/2,
              price := (latestRow df).close,
              stop_loss := (latestRow df).close * (102/100),
              take_profit := (latestRow df).close * (97/100),
              reasons := ["Price crossed below VWAP"] }, ?_, rfl⟩
    rw [generate_trading_signals_of_len df hlt, h6]
    rfl

/-- C10 witness: on `df10` (only the VWAP rule fires, latest volume 1000
against a trailing mean of 59.5) the emitted signal has strength exactly
0.5. -/
theorem C10_vwap_only_half_witness :
    ∃ sig, generate_trading_signals df10 = some sig ∧ sig.strength = 1/2 :=
  C10_vwap_only_half df10 (by decide) (by decide) (by decide) (by decide)
    (by decide) (by decide) (by decide) (by decide) volume_exceeds_mean_df10

/-- C4 counterexample: on the one-row frame `df4` (non-numeric `high` cell,
previously published RSI 50) the recompute fails at the VWAP step, yet the
RSI column has already been overwritten: a failing tick does NOT leave every
previously published indicator value unchanged. -/
theorem C4_pipeline_counterexample :
    (calculateIndicatorsBody true df4).2 = true ∧
    (calculate_indicators true df4).rsi ≠ df4.rsi := by
  refine ⟨?_, ?_⟩ <;> decide

/-- C4 amended: when an indicator step fails (here the VWAP constructor, on
a non-numeric high/low/volume cell, with the close column numeric), the
remaining statements of that tick's recompute are skipped and the method
still returns normally to its caller — the `except` clause only logs — but
the columns assigned by the steps that already ran (RSI, SMA-20/50, MACD)
keep their freshly computed values, while the columns of the failing and
later steps (VWAP) keep their prior, merely forward-filled, snapshots. -/
theorem C4_pipeline_amended (dq : Bool) (df : DFrame)
    (hclose : hasNonNum (ffillFrame df).close = false)
    (hfail : (hasNonNum (ffillFrame df).high || hasNonNum (ffillFrame df).low
      || hasNonNum (ffillFrame df).volume) = true) :
    (calculateIndicatorsBody dq df).2 = true ∧
    (calculate_indicators dq df).vwap = ffillCol none df.vwap ∧
    (calculate_indicators dq df).rsi = rsiColumn (ffillFrame df).close ∧
    (calculate_indicators dq df).sma_20 = smaColumn 20 (ffillFrame df).close ∧
    (calculate_indicators dq df).sma_50 = smaColumn 50 (ffillFrame df).close ∧
    (calculate_indicators dq df).macd = macdColumn (ffillFrame df).close := by
  have hbody : calculateIndicatorsBody dq df =
      ({ ffillFrame df with
          rsi := rsiColumn (ffillFrame df).close,
          sma_20 := smaColumn 20 (ffillFrame df).close,
          sma_50 := smaColumn 50 (ffillFrame df).close,
          macd := macdColumn (ffillFrame df).close,
          macd_signal := macdSignalColumn (ffillFrame df).close,
          macd_diff := macdDiffColumn (ffillFrame df).close }, true) := by
    unfold calculateIndicatorsBody
    simp only [hclose, Bool.false_eq_true, if_false]
    simp only [hfail, if_true]
  unfold calculate_indicators
  rw [hbody]
  refine ⟨rfl, ?_, rfl, rfl, rfl, rfl⟩
  show (ffillFrame df).vwap = ffillCol none df.vwap
  rfl

/-- C4 witness: the amended partial-update behaviour at the concrete frame
`df4`. -/
theorem C4_pipeline_amended_witness :
    (calculateIndicatorsBody true df4).2 = true ∧
    (calculate_indicators true df4).vwap = ffillCol none df4.vwap ∧
    (calculate_indicators true df4).rsi = rsiColumn (ffillFrame df4).close ∧
    (calculate_indicators true df4).sma_20 =
      smaColumn 20 (ffillFrame df4).close ∧
    (calculate_indicators true df4).sma_50 =
      smaColumn 50 (ffillFrame df4).close ∧
    (calculate_indicators true df4).macd = macdColumn (ffillFrame df4).close :=
  C4_pipeline_amended true df4 (by decide) (by decide)

end BinanceBot
